import Mathlib

/-!
Verification of `ablator/utils/base.py`: a shallow embedding of the
utility functions and the theorems settling the specification claims.

Python values handled by `apply_lambda_to_iter` are modelled by the
inductive type `PyVal`: dictionaries are association lists (insertion
order preserved, as in CPython), lists are Lean lists, and the remaining
constructors model leaves — some of them iterable in the Python sense
(strings, tuples, sets) and some not (integers, `None`).
-/

inductive PyVal where
  | vint (n : Int)
  | vnone
  | vstr (s : String)
  | vtuple (xs : List PyVal)
  | vset (xs : List PyVal)
  | vlist (xs : List PyVal)
  | vdict (kvs : List (String × PyVal))

/-- `isinstance(v, Iterable)`: strings, tuples, sets, lists and dicts are
iterable in Python; integers and `None` are not. -/
def PyVal.isIterable : PyVal → Bool
  | .vint _ => false
  | .vnone => false
  | _ => true

/-- `isinstance(v, dict)` -/
def PyVal.isDict : PyVal → Bool
  | .vdict _ => true
  | _ => false

/-- `isinstance(v, list)` -/
def PyVal.isList : PyVal → Bool
  | .vlist _ => true
  | _ => false

mutual

/-- Embedding of `apply_lambda_to_iter(iterable, fn)`:
dicts rebuild each entry, recursing when the value is `Iterable` and
applying `fn` directly otherwise; lists recurse on every element;
anything else returns `fn(iterable)`. -/
def apply_lambda_to_iter (fn : PyVal → PyVal) : PyVal → PyVal
  | .vdict kvs => .vdict (applyDictEntries fn kvs)
  | .vlist xs => .vlist (applyListElems fn xs)
  | v => fn v

/-- The dict comprehension of `apply_lambda_to_iter`, entry by entry. -/
def applyDictEntries (fn : PyVal → PyVal) :
    List (String × PyVal) → List (String × PyVal)
  | [] => []
  | (k, v) :: rest =>
      (k, if v.isIterable then apply_lambda_to_iter fn v else fn v)
        :: applyDictEntries fn rest

/-- The list comprehension of `apply_lambda_to_iter`, element by element. -/
def applyListElems (fn : PyVal → PyVal) : List PyVal → List PyVal
  | [] => []
  | v :: rest => apply_lambda_to_iter fn v :: applyListElems fn rest

end

theorem applyDictEntries_eq_map (fn : PyVal → PyVal) (kvs : List (String × PyVal)) :
    applyDictEntries fn kvs =
      kvs.map (fun kv =>
        (kv.1, if kv.2.isIterable then apply_lambda_to_iter fn kv.2 else fn kv.2)) := by
  induction kvs with
  | nil => simp [applyDictEntries]
  | cons kv rest ih => cases kv; simp [applyDictEntries, ih]

theorem applyListElems_eq_map (fn : PyVal → PyVal) (xs : List PyVal) :
    applyListElems fn xs = xs.map (apply_lambda_to_iter fn) := by
  induction xs with
  | nil => simp [applyListElems]
  | cons v rest ih => simp [applyListElems, ih]

/-- Claim C1: `apply_lambda_to_iter` follows the asymmetric recursion contract:
a dict input yields a new dict with the same keys where each value `v` is
recursively mapped when `v` is iterable and `fn(v)` is applied directly
otherwise; a list input recursively maps every element unconditionally; any
other input yields `fn(value)`. -/
theorem apply_lambda_to_iter_contract (fn : PyVal → PyVal) :
    (∀ kvs, apply_lambda_to_iter fn (.vdict kvs) =
        .vdict (kvs.map fun kv =>
          (kv.1, if kv.2.isIterable then apply_lambda_to_iter fn kv.2 else fn kv.2))) ∧
    (∀ xs, apply_lambda_to_iter fn (.vlist xs) =
        .vlist (xs.map (apply_lambda_to_iter fn))) ∧
    (∀ v, v.isDict = false → v.isList = false → apply_lambda_to_iter fn v = fn v) := by
  refine ⟨fun kvs => ?_, fun xs => ?_, fun v hd hl => ?_⟩
  · simp [apply_lambda_to_iter, applyDictEntries_eq_map]
  · simp [apply_lambda_to_iter, applyListElems_eq_map]
  · cases v <;> simp_all [apply_lambda_to_iter, PyVal.isDict, PyVal.isList]

theorem apply_lambda_to_iter_contract_witness :
    apply_lambda_to_iter (fun _ => .vint 7) (.vint 3) = .vint 7 :=
  (apply_lambda_to_iter_contract (fun _ => .vint 7)).2.2 (.vint 3) rfl rfl

mutual

theorem apply_id_val (v : PyVal) : apply_lambda_to_iter (fun x => x) v = v := by
  cases v with
  | vdict kvs => simp [apply_lambda_to_iter, apply_id_dict kvs]
  | vlist xs => simp [apply_lambda_to_iter, apply_id_list xs]
  | vint n => simp [apply_lambda_to_iter]
  | vnone => simp [apply_lambda_to_iter]
  | vstr s => simp [apply_lambda_to_iter]
  | vtuple xs => simp [apply_lambda_to_iter]
  | vset xs => simp [apply_lambda_to_iter]

theorem apply_id_dict (kvs : List (String × PyVal)) :
    applyDictEntries (fun x => x) kvs = kvs := by
  cases kvs with
  | nil => simp [applyDictEntries]
  | cons kv rest =>
    obtain ⟨k, v⟩ := kv
    simp only [applyDictEntries, apply_id_dict rest, List.cons.injEq, Prod.mk.injEq,
      true_and, and_true]
    split
    · exact apply_id_val v
    · rfl

theorem apply_id_list (xs : List PyVal) :
    applyListElems (fun x => x) xs = xs := by
  cases xs with
  | nil => simp [applyListElems]
  | cons v rest => simp [applyListElems, apply_id_val v, apply_id_list rest]

end

/-- Claim C2: for every nested structure built from dicts and lists with
arbitrary leaves, applying `apply_lambda_to_iter` with the identity transform
returns a structure deep-equal to the input: same nesting shape, same
container kinds, same leaves. -/
theorem apply_lambda_to_iter_identity (v : PyVal) :
    apply_lambda_to_iter (fun x => x) v = v :=
  apply_id_val v

/-- Claim C9: only the built-in list type is treated as a sequence container:
a non-list, non-dict iterable value (tuple, set, string), whether at top
level or as a dict value, gets `fn` applied to the whole value, never an
element-wise mapping. -/
theorem apply_lambda_to_iter_nonlist_iterable (fn : PyVal → PyVal) (x : PyVal)
    (hiter : x.isIterable = true) (hdict : x.isDict = false) (hlist : x.isList = false) :
    apply_lambda_to_iter fn x = fn x ∧
    ∀ (k : String), apply_lambda_to_iter fn (.vdict [(k, x)]) = .vdict [(k, fn x)] := by
  have h1 : apply_lambda_to_iter fn x = fn x := by
    cases x <;> simp_all [apply_lambda_to_iter, PyVal.isDict, PyVal.isList]
  refine ⟨h1, fun k => ?_⟩
  simp [apply_lambda_to_iter, applyDictEntries, hiter, h1]

theorem apply_lambda_to_iter_nonlist_iterable_witness :
    apply_lambda_to_iter (fun _ => .vint 7) (.vtuple [.vint 1, .vint 2]) = .vint 7 ∧
    apply_lambda_to_iter (fun _ => .vint 7) (.vdict [("a", .vtuple [.vint 1, .vint 2])]) =
      .vdict [("a", .vint 7)] :=
  ⟨(apply_lambda_to_iter_nonlist_iterable (fun _ => .vint 7)
      (.vtuple [.vint 1, .vint 2]) rfl rfl rfl).1,
   (apply_lambda_to_iter_nonlist_iterable (fun _ => .vint 7)
      (.vtuple [.vint 1, .vint 2]) rfl rfl rfl).2 "a"⟩

/-- The Python exception kinds surfaced by the modelled functions. -/
inductive PyErr where
  | valueError
  | typeError
  | assertionError
  | attributeError
  | indexError
deriving DecidableEq

/-- Device specifications accepted by `parse_device`: a string, an integer,
an iterable of specifications (modelled by a Lean list), or anything else
(e.g. `None`, modelled by `dnone`, or some other non-iterable object,
modelled by `dother`). -/
inductive PyDev where
  | dstr (s : String)
  | dint (n : Int)
  | dlist (ds : List PyDev)
  | dnone
  | dother (tag : String)

/-- `isinstance(device, str)` -/
def PyDev.isStr : PyDev → Bool
  | .dstr _ => true
  | _ => false

/-- `isinstance(device, int)` -/
def PyDev.isInt : PyDev → Bool
  | .dint _ => true
  | _ => false

/-- `isinstance(device, Iterable)`: strings and lists are iterable,
`None` and the other modelled leaves are not. -/
def PyDev.isIter : PyDev → Bool
  | .dstr _ => true
  | .dlist _ => true
  | _ => false

/-- Python's `s.startswith(p)`, as a prefix test on the character list
(equivalent to `String.startsWith`, but transparent to the kernel). -/
def strStartsWith (s p : String) : Bool := p.data.isPrefixOf s.data

mutual

/-- Embedding of `parse_device(device)`. The branches follow the source in
order: strings are returned when equal to `"cpu"`/`"cuda"` or starting with
`"cuda:"` and otherwise raise `ValueError`; integers are returned unchanged;
iterables are parsed element-wise; anything else yields `"cuda"` when
`torch.cuda.is_available()` (the `cuda_avail` parameter) and `"cpu"`
otherwise. -/
def parse_device (cuda_avail : Bool) : PyDev → Except PyErr PyDev
  | .dstr s =>
      if s = "cpu" ∨ s = "cuda" then .ok (.dstr s)
      else if strStartsWith s "cuda:" then .ok (.dstr s)
      else .error .valueError
  | .dint n => .ok (.dint n)
  | .dlist ds => (parseDeviceElems cuda_avail ds).map .dlist
  | _ => .ok (.dstr (if cuda_avail then "cuda" else "cpu"))

/-- The list comprehension of `parse_device`, left to right; the first
exception raised by an element propagates. -/
def parseDeviceElems (cuda_avail : Bool) : List PyDev → Except PyErr (List PyDev)
  | [] => .ok []
  | d :: rest => do
      let pd ← parse_device cuda_avail d
      let prest ← parseDeviceElems cuda_avail rest
      pure (pd :: prest)

end

/-- Calling the function `parse_device`: its signature
`def parse_device(device: ty.Union[str, list[str]])` declares `device` as a
required positional parameter with no default, so a call with no argument
raises `TypeError` before the body runs; otherwise the body is evaluated on
the argument. -/
def parse_device_call (cuda_avail : Bool) : Option PyDev → Except PyErr PyDev
  | none => .error .typeError
  | some d => parse_device cuda_avail d

theorem parseDeviceElems_eq_mapM (cuda_avail : Bool) (ds : List PyDev) :
    parseDeviceElems cuda_avail ds = ds.mapM (parse_device cuda_avail) := by
  rw [← List.mapM'_eq_mapM]
  induction ds with
  | nil => rfl
  | cons d rest ih => simp [parseDeviceElems, List.mapM', ih]

/-- Claim C3: `parse_device` raises `ValueError` for every string other than
`"cpu"`, `"cuda"`, or a string with the `"cuda:"` head, and returns each of
those recognized strings unchanged; an integer is returned unchanged, and an
iterable of specifications is parsed element-wise into an ordered list. -/
theorem parse_device_contract (cuda_avail : Bool) :
    (∀ s : String, (s = "cpu" ∨ s = "cuda" ∨ strStartsWith s "cuda:" = true) →
        parse_device cuda_avail (.dstr s) = .ok (.dstr s)) ∧
    (∀ s : String, s ≠ "cpu" → s ≠ "cuda" → strStartsWith s "cuda:" = false →
        parse_device cuda_avail (.dstr s) = .error .valueError) ∧
    (∀ n : Int, parse_device cuda_avail (.dint n) = .ok (.dint n)) ∧
    (∀ ds : List PyDev, parse_device cuda_avail (.dlist ds) =
        (ds.mapM (parse_device cuda_avail)).map .dlist) := by
  refine ⟨fun s hs => ?_, fun s h1 h2 h3 => ?_, fun n => rfl, fun ds => ?_⟩
  · rcases hs with h | h | h
    · simp [parse_device, h]
    · simp [parse_device, h]
    · by_cases h1 : s = "cpu" ∨ s = "cuda" <;> simp [parse_device, h1, h]
  · simp [parse_device, h1, h2, h3]
  · simp [parse_device, parseDeviceElems_eq_mapM]

theorem parse_device_contract_witness :
    parse_device true (.dstr "cuda:0") = .ok (.dstr "cuda:0") ∧
    parse_device true (.dstr "tpu") = .error .valueError ∧
    parse_device true (.dint 0) = .ok (.dint 0) ∧
    parse_device true (.dlist [.dstr "cpu", .dint 0]) = .ok (.dlist [.dstr "cpu", .dint 0]) :=
  ⟨(parse_device_contract true).1 "cuda:0" (Or.inr (Or.inr (by decide))),
   (parse_device_contract true).2.1 "tpu" (by decide) (by decide) (by decide),
   (parse_device_contract true).2.2.1 0,
   ((parse_device_contract true).2.2.2 [.dstr "cpu", .dint 0]).trans rfl⟩

/-- Counterexample to claim C4: the claim includes calls with no input at
all, but `parse_device` declares `device` as a required positional parameter
with no default value, so `parse_device()` raises `TypeError` instead of
returning the `"cuda"`/`"cpu"` default (shown here with an accelerator
available, where the claim would demand `"cuda"`). -/
theorem parse_device_no_argument_counterexample :
    parse_device_call true none = .error .typeError ∧
    (Except.error .typeError : Except PyErr PyDev) ≠ .ok (.dstr "cuda") :=
  ⟨rfl, fun h => Except.noConfusion h⟩

/-- Claim C4 (amended): `parse_device` applied to a supplied input that is
not a string, not an integer and not an iterable returns `"cuda"` if an
accelerator is available on the host and `"cpu"` otherwise; a call with no
input at all instead fails with a `TypeError`, since the parameter has no
default. -/
theorem parse_device_default_branch (cuda_avail : Bool) (d : PyDev)
    (hs : d.isStr = false) (hi : d.isInt = false) (ht : d.isIter = false) :
    parse_device cuda_avail d = .ok (.dstr (if cuda_avail then "cuda" else "cpu")) ∧
    parse_device_call cuda_avail none = .error .typeError := by
  refine ⟨?_, rfl⟩
  cases d <;> simp_all [parse_device, PyDev.isStr, PyDev.isInt, PyDev.isIter]

theorem parse_device_default_branch_witness :
    parse_device true .dnone = .ok (.dstr "cuda") ∧
    parse_device false .dnone = .ok (.dstr "cpu") :=
  ⟨(parse_device_default_branch true .dnone rfl rfl rfl).1,
   (parse_device_default_branch false .dnone rfl rfl rfl).1⟩

/-- The process-wide random-number-generator state mutated by `set_seed`:
the seeds last planted in `random`, `np.random`, `torch` (CPU) and
`torch.cuda` (all devices). -/
structure RngState where
  python_random : Int
  numpy_random : Int
  torch_cpu : Int
  torch_cuda_all : Int
deriving DecidableEq

/-- Embedding of `set_seed(seed)`. A Python caller can pass `None` (modelled
by `none`), which trips `assert seed is not None, "Must provide a seed"`;
otherwise the four RNG sources are seeded and the seed is returned. The
global RNG state is passed explicitly. -/
def set_seed (seed : Option Int) (st : RngState) : Except PyErr (Int × RngState) :=
  match seed, st with
  | none, _ => .error .assertionError
  | some s, _ => .ok (s, ⟨s, s, s, s⟩)

/-- Claim C5: `set_seed` fails with an assertion-style error when no seed is
supplied (`seed=None`), and for every supplied integer seed it returns that
same seed, after setting all four random-number sources to it. -/
theorem set_seed_contract (st : RngState) :
    set_seed none st = .error .assertionError ∧
    ∀ s : Int, set_seed (some s) st = .ok (s, ⟨s, s, s, s⟩) :=
  ⟨rfl, fun _ => rfl⟩

/-- `checkpoint_dir.glob("*.pt")`: the entries of the directory (modelled as
the list of its entry names) whose name matches the pattern, i.e. ends in
`".pt"` (matched on the character list, which is transparent to the
kernel). -/
def globPt (dir_entries : List String) : List String :=
  dir_entries.filter (fun f => ".pt".data.isSuffixOf f.data)

/-- The filename order used by Python's `sorted` on paths of one directory:
code-point lexicographic comparison, i.e. the lexicographic order on the
character list (equivalent to `String` `≤`, but transparent to the
kernel). -/
def nameLe (a b : String) : Prop := a.data ≤ b.data

instance : DecidableRel nameLe :=
  fun a b => inferInstanceAs (Decidable (a.data ≤ b.data))

instance : IsTotal String nameLe := ⟨fun a b => le_total a.data b.data⟩

instance : IsTrans String nameLe := ⟨fun _ _ _ => le_trans⟩

/-- Embedding of `get_latest_chkpts(checkpoint_dir)`:
`sorted(list(checkpoint_dir.glob("*.pt")))[::-1]` — the matching entries,
sorted ascending by name and then reversed. -/
def get_latest_chkpts (dir_entries : List String) : List String :=
  ((globPt dir_entries).insertionSort nameLe).reverse

/-- Claim C6: `get_latest_chkpts` returns the files of the directory
matching the checkpoint pattern `*.pt` sorted by name in descending
(reverse-lexicographic) order, and returns the empty list when no file
matches. -/
theorem get_latest_chkpts_contract (dir_entries : List String) :
    (get_latest_chkpts dir_entries).Sorted (fun a b => nameLe b a) ∧
    (get_latest_chkpts dir_entries).Perm (globPt dir_entries) ∧
    (globPt dir_entries = [] → get_latest_chkpts dir_entries = []) := by
  refine ⟨?_, ?_, fun h => ?_⟩
  · rw [get_latest_chkpts, List.Sorted, List.pairwise_reverse]
    exact List.sorted_insertionSort nameLe _
  · exact (List.reverse_perm _).trans (List.perm_insertionSort nameLe _)
  · rw [get_latest_chkpts, h]; rfl

theorem get_latest_chkpts_contract_witness :
    get_latest_chkpts ["notes.txt"] = [] ∧
    get_latest_chkpts ["epoch_01.pt", "epoch_02.pt", "epoch_03.pt"] =
      ["epoch_03.pt", "epoch_02.pt", "epoch_01.pt"] :=
  ⟨(get_latest_chkpts_contract ["notes.txt"]).2.2 rfl, by decide⟩

/-- An `nn.Linear`: a weight tensor and an optional bias (`bias=False` at
construction leaves `module.bias` as `None`). Parameter tensors are modelled
as lists of rational values. -/
structure LinearMod where
  weight : List ℚ
  bias : Option (List ℚ)

/-- An `nn.Embedding`: a 2-D weight tensor (one row per index) and an
optional configured padding index. -/
structure EmbeddingMod where
  weight : List (List ℚ)
  padding_idx : Option Nat

/-- An `nn.LayerNorm`: with `elementwise_affine=False` both `weight` and
`bias` are `None`, hence both are optional. -/
structure LayerNormMod where
  weight : Option (List ℚ)
  bias : Option (List ℚ)

/-- An `nn.Module` as dispatched on by `init_weights`: one of the three
handled kinds, or any other kind of module (carried opaque). -/
inductive NNModule where
  | linear (l : LinearMod)
  | embedding (e : EmbeddingMod)
  | layerNorm (n : LayerNormMod)
  | other (tag : String)

/-- `isinstance(module, nn.Linear)` -/
def NNModule.isLinear : NNModule → Bool
  | .linear _ => true
  | _ => false

/-- `isinstance(module, nn.Embedding)` -/
def NNModule.isEmbedding : NNModule → Bool
  | .embedding _ => true
  | _ => false

/-- `isinstance(module, nn.LayerNorm)` -/
def NNModule.isLayerNorm : NNModule → Bool
  | .layerNorm _ => true
  | _ => false

/-- Embedding of `init_weights(module)`. The in-place mutation is modelled
by returning the updated module; the standard-normal samples drawn by
`normal_` are supplied as the streams `draw` (1-D) and `draw2` (2-D).
A linear layer gets its weight redrawn and its bias zeroed only when the
bias is present; an embedding gets its weight redrawn and, when a padding
index is configured, that row zeroed (an out-of-range index raises
`IndexError`, as tensor indexing would); a normalization layer has
`module.bias.data` and `module.weight.data` accessed unconditionally, so a
`None` bias or weight raises `AttributeError`; any other module kind falls
through the `if`/`elif` chain untouched. -/
def init_weights (draw : Nat → ℚ) (draw2 : Nat → Nat → ℚ) :
    NNModule → Except PyErr NNModule
  | .linear l =>
      .ok (.linear ⟨l.weight.mapIdx (fun i _ => draw i),
                    l.bias.map (fun b => b.map (fun _ => 0))⟩)
  | .embedding e =>
      let w := e.weight.mapIdx (fun i row => row.mapIdx (fun j _ => draw2 i j))
      match e.padding_idx with
      | none => .ok (.embedding ⟨w, none⟩)
      | some p =>
          if p < w.length then
            .ok (.embedding
              ⟨w.mapIdx (fun i row => if i = p then row.map (fun _ => 0) else row),
               some p⟩)
          else .error .indexError
  | .layerNorm n =>
      match n.bias with
      | none => .error .attributeError
      | some b =>
          match n.weight with
          | none => .error .attributeError
          | some w =>
              .ok (.layerNorm ⟨some (w.map (fun _ => 1)), some (b.map (fun _ => 0))⟩)
  | .other tag => .ok (.other tag)

/-- Claim C7: `init_weights` applied to any module that is not a linear,
embedding, or normalization layer leaves that module entirely unchanged and
raises no error. -/
theorem init_weights_other_untouched (draw : Nat → ℚ) (draw2 : Nat → Nat → ℚ)
    (m : NNModule) (h1 : m.isLinear = false) (h2 : m.isEmbedding = false)
    (h3 : m.isLayerNorm = false) :
    init_weights draw draw2 m = .ok m := by
  cases m <;>
    simp_all [init_weights, NNModule.isLinear, NNModule.isEmbedding, NNModule.isLayerNorm]

theorem init_weights_other_untouched_witness :
    init_weights (fun _ => 2) (fun _ _ => 2) (.other "relu") = .ok (.other "relu") :=
  init_weights_other_untouched (fun _ => 2) (fun _ _ => 2) (.other "relu") rfl rfl rfl

/-- Claim C10: `init_weights` guards against an absent bias only in the
linear-layer branch (a linear layer with `bias=None` still succeeds, its
bias left absent); in the normalization-layer branch both `bias` and
`weight` are accessed unconditionally, so that branch succeeds exactly when
the layer has affine parameters (bias and weight not `None`), and the
failure is unreachable under that precondition. -/
theorem init_weights_layernorm_guard (draw : Nat → ℚ) (draw2 : Nat → Nat → ℚ) :
    (∀ l : LinearMod, l.bias = none →
        init_weights draw draw2 (.linear l) =
          .ok (.linear ⟨l.weight.mapIdx (fun i _ => draw i), none⟩)) ∧
    (∀ n : LayerNormMod,
        (∃ m, init_weights draw draw2 (.layerNorm n) = .ok m) ↔
          (n.bias.isSome = true ∧ n.weight.isSome = true)) := by
  refine ⟨fun l h => by simp [init_weights, h], fun n => ?_⟩
  obtain ⟨w, b⟩ := n
  cases b <;> cases w <;> simp [init_weights]

theorem init_weights_layernorm_guard_witness :
    init_weights (fun _ => 2) (fun _ _ => 2) (.linear ⟨[1], none⟩) =
      .ok (.linear ⟨[2], none⟩) ∧
    (∃ m, init_weights (fun _ => 2) (fun _ _ => 2)
        (.layerNorm ⟨some [5], some [7]⟩) = .ok m) :=
  ⟨((init_weights_layernorm_guard (fun _ => 2) (fun _ _ => 2)).1 ⟨[1], none⟩ rfl).trans rfl,
   ((init_weights_layernorm_guard (fun _ => 2) (fun _ _ => 2)).2
      ⟨some [5], some [7]⟩).mpr ⟨rfl, rfl⟩⟩

/-- The placeholder class `Dummy`. Python object identity is modelled by an
id: two `Dummy` values are the same instance exactly when their ids
coincide. -/
structure Dummy where
  obj_id : Nat
deriving DecidableEq

/-- `Dummy(*args, **kwargs)`: the constructor accepts and ignores any
positional and keyword arguments; `fresh` is the identity of the newly
allocated instance. -/
def Dummy.init (fresh : Nat) (args : List PyVal) (kwargs : List (String × PyVal)) :
    Dummy :=
  match args, kwargs with
  | _, _ => ⟨fresh⟩

/-- `__call__(self, *args, **kwargs)`: returns `self`. -/
def Dummy.call (d : Dummy) (args : List PyVal) (kwargs : List (String × PyVal)) :
    Dummy :=
  match args, kwargs with
  | _, _ => d

/-- `__getattr__(self, *args, **kwargs)`: returns `self`. -/
def Dummy.getattr (d : Dummy) (attr_name : String) : Dummy :=
  match attr_name with
  | _ => d

/-- `__getitem__(self, *args, **kwargs)`: returns `self`. -/
def Dummy.getitem (d : Dummy) (key : PyVal) : Dummy :=
  match key with
  | _ => d

/-- Claim C8: `Dummy` can be constructed with any arguments, and calling the
resulting instance, accessing an arbitrary attribute on it, and indexing it
with any key all succeed (the operations are total) and each returns that
same placeholder instance — chaining them still yields the instance built by
the constructor. -/
theorem dummy_absorbs_everything (fresh : Nat)
    (args : List PyVal) (kwargs : List (String × PyVal))
    (cargs : List PyVal) (ckwargs : List (String × PyVal))
    (attr_name : String) (key : PyVal) :
    (Dummy.init fresh args kwargs).call cargs ckwargs = Dummy.init fresh args kwargs ∧
    (Dummy.init fresh args kwargs).getattr attr_name = Dummy.init fresh args kwargs ∧
    (Dummy.init fresh args kwargs).getitem key = Dummy.init fresh args kwargs ∧
    (((Dummy.init fresh args kwargs).call cargs ckwargs).getattr attr_name).getitem key =
      Dummy.init fresh args kwargs :=
  ⟨rfl, rfl, rfl, rfl⟩
